import Mathlib

/-!
Shallow embedding of the order lifecycle and payment-confirmation pipeline of
the storefront backend (models/Order.js, services/userService.js,
controllers/users/shoppingController.js, controllers/admin/orderController.js).

Orders live in a partition-keyed document store (Cosmos DB), modelled as a
list of documents; the partition key is the owning user id.  Timestamps are
modelled as naturals (the code stores ISO strings produced from a monotone
clock and only ever orders and overwrites them).  The Stripe gateway and the
store failure modes are modelled by explicit parameters, since both are
external calls whose outcome the controller code branches on via try/catch.
-/

namespace JohnApi

/-- Shipping address as carried on an order document (models/Order.js keeps
whatever object the caller sent; validate only inspects street, city and
country for truthiness, i.e. non-emptiness). -/
structure Address where
  street : String
  city : String
  postalCode : String
  country : String
deriving DecidableEq, Repr

/-- One cart line item as embedded in the order document.  The JS code never
validates quantity or price on an order item; both are plain numbers. -/
structure LineItem where
  productId : String
  name : String
  description : String
  price : Int
  quantity : Int
  images : List String
deriving DecidableEq, Repr

/-- Persisted order document, the field-for-field shape of
Order.toDocument() in models/Order.js. -/
structure OrderDoc where
  id : String
  userId : String
  items : List LineItem
  address : Address
  status : String
  total : Int
  stripeSessionId : Option String
  customerEmail : String
  metadata : List (String × String)
  createdAt : Nat
  updatedAt : Nat
deriving DecidableEq, Repr

/-- The orders container: a list of documents.  Cosmos partitions by userId;
the list model keeps all partitions together and operations carry the
partition key explicitly, as the JS call sites do. -/
abbrev Store := List OrderDoc

/-- containers.orders.item(orderId, userId).read(): point lookup by id and
partition key. -/
def getByOwnerAndId (s : Store) (orderId userId : String) : Option OrderDoc :=
  s.find? (fun d => d.id == orderId && d.userId == userId)

/-- The cross-partition scan SELECT * FROM c WHERE c.id = @id used by the
admin controller and the webhook handler. -/
def queryById (s : Store) (orderId : String) : List OrderDoc :=
  s.filter (fun d => d.id == orderId)

/-- resources[0] of the cross-partition scan, as both the admin controller
and the webhook handler use it. -/
def getById (s : Store) (orderId : String) : Option OrderDoc :=
  (queryById s orderId).head?

/-- containers.orders.item(orderId, userId).replace(newDoc): overwrite the
document at that id and partition key, last write wins. -/
def replaceDoc (s : Store) (orderId userId : String) (newDoc : OrderDoc) : Store :=
  s.map (fun d => if d.id == orderId && d.userId == userId then newDoc else d)

/-- Constructor input for an order, the orderData argument of
userService.createOrder as assembled by ShoppingController
(userId, items, address, total, customerEmail, metadata; status and
stripeSessionId take the constructor defaults pending / null). -/
structure OrderData where
  userId : String
  items : List LineItem
  address : Address
  total : Int
  customerEmail : String
  metadata : List (String × String)
deriving DecidableEq, Repr

/-- new Order(orderData) in models/Order.js: fresh id and timestamps come
from the environment (passed in here), status defaults to pending and
stripeSessionId to null. -/
def mkOrder (orderId : String) (now : Nat) (data : OrderData) : OrderDoc :=
  { id := orderId
    userId := data.userId
    items := data.items
    address := data.address
    status := "pending"
    total := data.total
    stripeSessionId := none
    customerEmail := data.customerEmail
    metadata := data.metadata
    createdAt := now
    updatedAt := now }

/-- Order.validate() in models/Order.js: pushes one message per failed check,
in source order.  JS truthiness on strings is emptiness; the items check
collapses to emptiness because the constructor always installs an array; the
address check is one combined truthiness test over the object and its
street, city and country fields. -/
def validateOrder (o : OrderDoc) : List String :=
  (if o.userId = "" then ["User ID is required"] else []) ++
  (if o.items = [] then ["At least one item is required"] else []) ++
  (if o.address.street = "" ∨ o.address.city = "" ∨ o.address.country = ""
    then ["Valid address is required"] else []) ++
  (if o.customerEmail = "" then ["Customer email is required"] else [])

/-- Outcome of userService.createOrder: a thrown validation Error carrying
the joined message list, a Cosmos create conflict, or the created document
together with the store that now holds it. -/
inductive CreateOrderResult where
  | validationFailure (msg : String)
  | conflict
  | created (s : Store) (order : OrderDoc)
deriving DecidableEq, Repr

/-- userService.createOrder: build the Order, validate, throw on any
validation error with every message joined, otherwise insert the document
(Cosmos items.create conflicts when a document with that id already exists
in the partition). -/
def createOrder (s : Store) (orderId : String) (now : Nat) (data : OrderData) :
    CreateOrderResult :=
  let o := mkOrder orderId now data
  let errs := validateOrder o
  if errs = [] then
    if s.any (fun d => d.id == orderId && d.userId == data.userId) then
      CreateOrderResult.conflict
    else
      CreateOrderResult.created (s ++ [o]) o
  else
    CreateOrderResult.validationFailure
      ("Order validation failed: " ++ String.intercalate ", " errs)

/-- Outcome of the Stripe checkout.sessions.create call, an external
gateway call the controller awaits inside a try block. -/
inductive GatewayResult where
  | success (sessionId url : String)
  | failure
deriving DecidableEq, Repr

/-- HTTP-level outcome of ShoppingController.createCheckoutSession: a 400
with a message, the catch-all 500 Internal Server Error, or a 200 carrying
the checkout url. -/
inductive CheckoutResponse where
  | badRequest (msg : String)
  | serverError
  | checkoutUrl (url : String)
deriving DecidableEq, Repr

/-- ShoppingController.createCheckoutSession: guard the cart and address,
create the pending order (a thrown validation error lands in the outer
catch, returning 500 with the store untouched), call the gateway (a failure
lands in the same catch, with the pending order already persisted), then
replace the order document with the session id attached and a refreshed
updatedAt. -/
def createCheckoutSession (s : Store) (orderId : String) (tCreate tAttach : Nat)
    (userId : String) (cartItems : List LineItem) (customerEmail : String)
    (address? : Option Address) (total : Int) (metadata : List (String × String))
    (gateway : GatewayResult) : Store × CheckoutResponse :=
  if cartItems = [] then
    (s, CheckoutResponse.badRequest "Cart items are required")
  else
    match address? with
    | none => (s, CheckoutResponse.badRequest "Address is required")
    | some address =>
      match createOrder s orderId tCreate
        { userId := userId, items := cartItems, address := address,
          total := total, customerEmail := customerEmail, metadata := metadata } with
      | CreateOrderResult.validationFailure _ => (s, CheckoutResponse.serverError)
      | CreateOrderResult.conflict => (s, CheckoutResponse.serverError)
      | CreateOrderResult.created s1 order =>
        match gateway with
        | GatewayResult.failure => (s1, CheckoutResponse.serverError)
        | GatewayResult.success sessionId url =>
          let doc' := { order with stripeSessionId := some sessionId, updatedAt := tAttach }
          (replaceDoc s1 order.id userId doc', CheckoutResponse.checkoutUrl url)

/-- Transport-level outcome of the webhook endpoint once the signature is
verified: the handler either acknowledges with the received body, or an
error escapes to the Express error middleware.  The source handler never
produces the second constructor; it exists so that the propagation claim is
expressible. -/
inductive WebhookResponse where
  | received
  | errorPropagated
deriving DecidableEq, Repr

/-- The checkout.session.completed branch of
ShoppingController.handleStripeWebhook.  The whole store interaction sits in
a try/catch whose catch only logs, so a store failure (storeErr) leaves the
store unchanged and still acknowledges.  A present correlation id is
resolved by cross-partition scan; when found, status is overwritten to
confirmed and updatedAt refreshed, with no check of the current status;
when absent, the miss is logged and the event acknowledged. -/
def handleCompletedEvent (storeErr : Bool) (now : Nat) (orderId? : Option String)
    (s : Store) : Store × WebhookResponse :=
  match orderId? with
  | none => (s, WebhookResponse.received)
  | some oid =>
    if storeErr then (s, WebhookResponse.received)
    else
      match queryById s oid with
      | [] => (s, WebhookResponse.received)
      | doc :: _ =>
        let doc' := { doc with status := "confirmed", updatedAt := now }
        (replaceDoc s oid doc.userId doc', WebhookResponse.received)

/-- ShoppingController.handleStripeWebhook after signature verification:
only checkout.session.completed triggers the completion branch; every other
event type is acknowledged untouched. -/
def handleVerifiedEvent (storeErr : Bool) (now : Nat) (eventType : String)
    (orderId? : Option String) (s : Store) : Store × WebhookResponse :=
  if eventType == "checkout.session.completed" then
    handleCompletedEvent storeErr now orderId? s
  else
    (s, WebhookResponse.received)

/-- The admin controller's enumerated status list. -/
def validStatuses : List String :=
  ["pending", "confirmed", "processing", "out_for_delivery", "delivered", "cancelled"]

/-- HTTP-level outcome of OrderController.updateOrderStatus: 400 Invalid
status, 404 Order not found, or 200 with the updated order. -/
inductive UpdateStatusResult where
  | invalidStatus
  | notFound
  | updated (order : OrderDoc)
deriving DecidableEq, Repr

/-- OrderController.updateOrderStatus: reject a status outside the
enumerated list, resolve the order by cross-partition scan, overwrite
status, refresh updatedAt, and replace at the document's partition key. -/
def updateOrderStatus (s : Store) (orderId newStatus : String) (now : Nat) :
    Store × UpdateStatusResult :=
  if newStatus ∈ validStatuses then
    match queryById s orderId with
    | [] => (s, UpdateStatusResult.notFound)
    | doc :: _ =>
      let doc' := { doc with status := newStatus, updatedAt := now }
      (replaceDoc s orderId doc.userId doc', UpdateStatusResult.updated doc')
  else
    (s, UpdateStatusResult.invalidStatus)

/-- CONTAINS(field, needle, true): case-insensitive substring match. -/
def containsCI (hay needle : String) : Bool :=
  decide (needle.toLower.toList <:+: hay.toLower.toList)

/-- Lookup of a key in the metadata map (c.metadata.order_ref resolves to
nothing when the key is absent, and CONTAINS over a missing field matches
no document). -/
def metaLookup (m : List (String × String)) (k : String) : Option String :=
  (m.find? (fun kv => kv.1 == k)).map (fun kv => kv.2)

/-- CONTAINS applied to a possibly missing field. -/
def optionContainsCI (v? : Option String) (needle : String) : Bool :=
  match v? with
  | some v => containsCI v needle
  | none => false

/-- WHERE clause of ShoppingController.getOrders: the caller's userId,
optionally a status equality, optionally a case-insensitive containment
match on metadata.order_ref. -/
def userOrdersFilter (userId : String) (status? search? : Option String)
    (d : OrderDoc) : Bool :=
  d.userId == userId &&
  (match status? with
   | some st => d.status == st
   | none => true) &&
  (match search? with
   | some q => optionContainsCI (metaLookup d.metadata "order_ref") q
   | none => true)

/-- WHERE clause of OrderController.getAllOrders: unscoped, optionally a
status equality, optionally a containment match on customerEmail or on
metadata.order_ref. -/
def adminOrdersFilter (status? search? : Option String) (d : OrderDoc) : Bool :=
  (match status? with
   | some st => d.status == st
   | none => true) &&
  (match search? with
   | some q => containsCI d.customerEmail q ||
               optionContainsCI (metaLookup d.metadata "order_ref") q
   | none => true)

/-- ORDER BY c.createdAt DESC: newer (larger) timestamps first. -/
def createdAtGE (a b : OrderDoc) : Prop :=
  b.createdAt ≤ a.createdAt

instance : DecidableRel createdAtGE :=
  fun a b => Nat.decLe b.createdAt a.createdAt

instance : IsTotal OrderDoc createdAtGE :=
  ⟨fun a b => Nat.le_total b.createdAt a.createdAt⟩

instance : IsTrans OrderDoc createdAtGE :=
  ⟨fun _ _ _ hab hbc => Nat.le_trans hbc hab⟩

/-- The store's ORDER BY c.createdAt DESC, modelled by a sort that is a
descending-sorted permutation of its input. -/
def sortByCreatedAtDesc (l : List OrderDoc) : List OrderDoc :=
  l.insertionSort createdAtGE

/-- The shared shape of both order listings: filter, sort by createdAt
descending, then OFFSET (page-1)*limit LIMIT limit. -/
def runOrdersQuery (s : Store) (f : OrderDoc → Bool) (page limit : Nat) :
    List OrderDoc :=
  ((sortByCreatedAtDesc (s.filter f)).drop ((page - 1) * limit)).take limit

/-- ShoppingController.getOrders result list for one page. -/
def getOrders (s : Store) (userId : String) (status? search? : Option String)
    (page limit : Nat) : List OrderDoc :=
  runOrdersQuery s (userOrdersFilter userId status? search?) page limit

/-- OrderController.getAllOrders result list for one page. -/
def getAllOrders (s : Store) (status? search? : Option String)
    (page limit : Nat) : List OrderDoc :=
  runOrdersQuery s (adminOrdersFilter status? search?) page limit

/-! Concrete sample data used by counterexamples and witnesses. -/

/-- A shipping address passing every validation check. -/
def sampleAddress : Address :=
  { street := "1 High St", city := "London", postalCode := "N1 1AA", country := "UK" }

/-- A well-formed line item (positive quantity, non-negative price). -/
def sampleItem : LineItem :=
  { productId := "prod_1", name := "Mug", description := "A blue mug",
    price := 500, quantity := 2, images := [] }

/-- A line item with quantity 0 and a negative price, which the spec says
must be rejected. -/
def badItem : LineItem :=
  { productId := "prod_2", name := "Ghost", description := "Zero of these",
    price := -5, quantity := 0, images := [] }

/-- A stored order sitting at the given status. -/
def orderAt (st : String) : OrderDoc :=
  { id := "order_1", userId := "user_1", items := [sampleItem],
    address := sampleAddress, status := st, total := 1000,
    stripeSessionId := some "sess_abc", customerEmail := "jo@example.com",
    metadata := [("order_ref", "ORD-1")], createdAt := 10, updatedAt := 10 }

/-- The i-th of a family of pairwise distinct pending orders of one owner,
used to build a 25-order store. -/
def nthOrder (i : Nat) : OrderDoc :=
  { id := "order_" ++ toString i, userId := "user_1", items := [sampleItem],
    address := sampleAddress, status := "pending", total := 1000,
    stripeSessionId := none, customerEmail := "jo@example.com",
    metadata := [("order_ref", "ORD-" ++ toString i)],
    createdAt := i, updatedAt := i }

/-! Helper lemmas about the store operations. -/

/-- The head of the cross-partition scan carries the scanned id. -/
theorem queryById_head_id {s : Store} {oid : String} {doc : OrderDoc}
    {rest : List OrderDoc} (hq : queryById s oid = doc :: rest) :
    doc.id = oid := by
  have hmem : doc ∈ queryById s oid := by
    rw [hq]; exact List.mem_cons_self _ _
  have := (List.mem_filter.mp hmem).2
  simpa using this

/-- Replacing the first document found by the scan, at its own partition
key, makes the replacement the new head of the scan (provided the
replacement keeps the scanned id). -/
theorem queryById_replaceDoc {s : Store} {oid : String} {doc : OrderDoc}
    {rest : List OrderDoc} (newDoc : OrderDoc)
    (hq : queryById s oid = doc :: rest) (hid : newDoc.id = oid) :
    ∃ rest2, queryById (replaceDoc s oid doc.userId newDoc) oid = newDoc :: rest2 := by
  induction s with
  | nil => simp [queryById] at hq
  | cons x xs ih =>
    by_cases hx : x.id = oid
    · have hq' : x :: List.filter (fun d => d.id == oid) xs = doc :: rest := by
        simpa [queryById, List.filter_cons, hx] using hq
      have hxdoc : x = doc := (List.cons.injEq _ _ _ _ ▸ hq').1
      subst hxdoc
      refine ⟨List.filter (fun d => d.id == oid)
        (List.map (fun d => if d.id == oid && d.userId == x.userId then newDoc else d) xs), ?_⟩
      simp [queryById, replaceDoc, List.filter_cons, hx, hid]
    · have hq' : queryById xs oid = doc :: rest := by
        simpa [queryById, List.filter_cons, hx] using hq
      obtain ⟨rest2, hrest2⟩ := ih hq'
      refine ⟨rest2, ?_⟩
      simpa [queryById, replaceDoc, List.filter_cons, hx] using hrest2

/-- Replacing twice with the same document (whose id and partition key match
the target) is the same as replacing once. -/
theorem replaceDoc_idem (s : Store) (oid u : String) (d : OrderDoc)
    (hid : d.id = oid) (hu : d.userId = u) :
    replaceDoc (replaceDoc s oid u d) oid u d = replaceDoc s oid u d := by
  unfold replaceDoc
  rw [List.map_map]
  apply List.map_congr_left
  intro a _
  by_cases hc : a.id = oid ∧ a.userId = u
  · simp [Function.comp, hc.1, hc.2, hid, hu]
  · have hcond : (a.id == oid && a.userId == u) = false := by
      rcases not_and_or.mp hc with h' | h' <;> simp [h']
    simp [Function.comp, hcond]

/-- A replace whose id and partition key match no document of a store
leaves that store unchanged. -/
theorem replaceDoc_not_present (s : Store) (oid u : String) (d : OrderDoc)
    (h : ∀ x ∈ s, ¬(x.id = oid ∧ x.userId = u)) :
    replaceDoc s oid u d = s := by
  unfold replaceDoc
  rw [show s.map (fun x => if x.id == oid && x.userId == u then d else x) = s.map id by
    apply List.map_congr_left
    intro a ha
    have : (a.id == oid && a.userId == u) = false := by
      rcases not_and_or.mp (h a ha) with h' | h' <;> simp [h']
    simp [this]]
  exact List.map_id s

/-- Order validation succeeds exactly when the four truthiness checks of
models/Order.js pass. -/
theorem validateOrder_eq_nil_iff (o : OrderDoc) :
    validateOrder o = [] ↔
      (o.userId ≠ "" ∧ o.items ≠ [] ∧ o.address.street ≠ "" ∧
       o.address.city ≠ "" ∧ o.address.country ≠ "" ∧ o.customerEmail ≠ "") := by
  unfold validateOrder
  by_cases h1 : o.userId = "" <;>
    by_cases h2 : o.items = [] <;>
      by_cases h3 : o.address.street = "" ∨ o.address.city = "" ∨ o.address.country = "" <;>
        by_cases h4 : o.customerEmail = "" <;>
          simp [h1, h2, h3, h4] <;> tauto

/-- Unfolding of the admin status update on the success path. -/
theorem updateOrderStatus_eq {s : Store} {oid st : String} (t : Nat) {doc : OrderDoc}
    {rest : List OrderDoc} (hst : st ∈ validStatuses)
    (hq : queryById s oid = doc :: rest) :
    updateOrderStatus s oid st t
      = (replaceDoc s oid doc.userId { doc with status := st, updatedAt := t },
         UpdateStatusResult.updated { doc with status := st, updatedAt := t }) := by
  simp [updateOrderStatus, hst, hq]

/-- After replacing the scan's head document at its own partition key, a
fresh scan resolves the replacement (provided it keeps the scanned id). -/
theorem getById_after_replace {s : Store} {oid : String} {doc : OrderDoc}
    {rest : List OrderDoc} (newDoc : OrderDoc)
    (hq : queryById s oid = doc :: rest) (hid : newDoc.id = oid) :
    getById (replaceDoc s oid doc.userId newDoc) oid = some newDoc := by
  obtain ⟨rest2, hr⟩ := queryById_replaceDoc newDoc hq hid
  simp [getById, hr]

/-- C1 counterexample: for the stored order sitting at status processing,
applying a verified payment-completion event with that order's id is not a
no-op — the persisted order changes, its status becoming confirmed. -/
theorem C1_counterexample :
    getById ((handleVerifiedEvent false 99 "checkout.session.completed"
        (some "order_1") [orderAt "processing"]).1) "order_1"
      ≠ some (orderAt "processing") ∧
    (getById ((handleVerifiedEvent false 99 "checkout.session.completed"
        (some "order_1") [orderAt "processing"]).1) "order_1").map OrderDoc.status
      = some "confirmed" := by
  constructor
  · decide
  · decide

/-- C1 (amended): applying a verified payment-completion event whose
correlation id resolves to a stored order is not a no-op for orders at or
beyond confirmed: the handler unconditionally overwrites the status to
confirmed and refreshes updatedAt, whatever the current status, so an
already-confirmed order keeps status confirmed but gets a fresh updatedAt,
and an order in any later state is moved back to confirmed; the event is
acknowledged. -/
theorem C1_status_overwritten (s : Store) (t : Nat) (oid : String) (doc : OrderDoc)
    (rest : List OrderDoc) (hq : queryById s oid = doc :: rest) :
    (handleVerifiedEvent false t "checkout.session.completed" (some oid) s).1
      = replaceDoc s oid doc.userId { doc with status := "confirmed", updatedAt := t } ∧
    getById ((handleVerifiedEvent false t "checkout.session.completed" (some oid) s).1) oid
      = some { doc with status := "confirmed", updatedAt := t } ∧
    (handleVerifiedEvent false t "checkout.session.completed" (some oid) s).2
      = WebhookResponse.received := by
  have h1 : handleVerifiedEvent false t "checkout.session.completed" (some oid) s
      = (replaceDoc s oid doc.userId { doc with status := "confirmed", updatedAt := t },
         WebhookResponse.received) := by
    simp [handleVerifiedEvent, handleCompletedEvent, hq]
  refine ⟨by rw [h1], ?_, by rw [h1]⟩
  rw [h1]
  obtain ⟨rest2, hr⟩ := queryById_replaceDoc
    { doc with status := "confirmed", updatedAt := t } hq
    (by simpa using queryById_head_id hq)
  simp [getById, hr]

/-- C1 witness: the amended statement evaluated on the one-order store at
status processing. -/
theorem C1_witness :
    (handleVerifiedEvent false 99 "checkout.session.completed"
        (some "order_1") [orderAt "processing"]).1
      = replaceDoc [orderAt "processing"] "order_1" (orderAt "processing").userId
          { orderAt "processing" with status := "confirmed", updatedAt := 99 } ∧
    getById ((handleVerifiedEvent false 99 "checkout.session.completed"
        (some "order_1") [orderAt "processing"]).1) "order_1"
      = some { orderAt "processing" with status := "confirmed", updatedAt := 99 } ∧
    (handleVerifiedEvent false 99 "checkout.session.completed"
        (some "order_1") [orderAt "processing"]).2
      = WebhookResponse.received :=
  C1_status_overwritten [orderAt "processing"] 99 "order_1" (orderAt "processing") []
    (by decide)

/-- C2: applying the same verified payment-completion event twice to a store
holding the referenced order at status pending confirms the order and is
idempotent — after one delivery the order is confirmed, after a duplicate
delivery it is still confirmed and equal to the once-delivered state except
that updatedAt is rewritten (to an equal value — making the stores
literally equal — when the two deliveries carry the same timestamp); the
order never reaches a third state. -/
theorem C2_idempotent (s : Store) (oid : String) (t1 t2 : Nat) (doc : OrderDoc)
    (rest : List OrderDoc) (hq : queryById s oid = doc :: rest)
    (hp : doc.status = "pending") :
    ∃ d1 d2,
      getById ((handleVerifiedEvent false t1 "checkout.session.completed"
          (some oid) s).1) oid = some d1 ∧
      getById ((handleVerifiedEvent false t2 "checkout.session.completed" (some oid)
          ((handleVerifiedEvent false t1 "checkout.session.completed"
            (some oid) s).1)).1) oid = some d2 ∧
      d1.status = "confirmed" ∧ d2.status = "confirmed" ∧
      d2 = { d1 with updatedAt := t2 } ∧
      (t1 = t2 →
        (handleVerifiedEvent false t2 "checkout.session.completed" (some oid)
            ((handleVerifiedEvent false t1 "checkout.session.completed"
              (some oid) s).1)).1
          = (handleVerifiedEvent false t1 "checkout.session.completed"
              (some oid) s).1) := by
  have hdocid : doc.id = oid := queryById_head_id hq
  have h1 : handleVerifiedEvent false t1 "checkout.session.completed" (some oid) s
      = (replaceDoc s oid doc.userId { doc with status := "confirmed", updatedAt := t1 },
         WebhookResponse.received) := by
    simp [handleVerifiedEvent, handleCompletedEvent, hq]
  obtain ⟨rest1, hr1⟩ := queryById_replaceDoc
    { doc with status := "confirmed", updatedAt := t1 } hq
    (by simpa using hdocid)
  have h2 : handleVerifiedEvent false t2 "checkout.session.completed" (some oid)
        (replaceDoc s oid doc.userId { doc with status := "confirmed", updatedAt := t1 })
      = (replaceDoc
           (replaceDoc s oid doc.userId { doc with status := "confirmed", updatedAt := t1 })
           oid doc.userId { doc with status := "confirmed", updatedAt := t2 },
         WebhookResponse.received) := by
    simp [handleVerifiedEvent, handleCompletedEvent, hr1]
  obtain ⟨rest2, hr2⟩ := queryById_replaceDoc
    { doc with status := "confirmed", updatedAt := t2 } hr1 (by simpa using hdocid)
  refine ⟨{ doc with status := "confirmed", updatedAt := t1 },
          { doc with status := "confirmed", updatedAt := t2 }, ?_, ?_, rfl, rfl, rfl, ?_⟩
  · rw [h1]
    simp [getById, hr1]
  · rw [h1, h2]
    simpa [getById] using congrArg List.head? hr2
  · intro ht
    subst ht
    rw [h1, h2]
    exact replaceDoc_idem s oid doc.userId
      { doc with status := "confirmed", updatedAt := t1 } hdocid rfl

/-- C2 witness: the idempotence statement evaluated on the one-order store
at status pending, with both deliveries timestamped 99. -/
theorem C2_witness :
    ∃ d1 d2,
      getById ((handleVerifiedEvent false 99 "checkout.session.completed"
          (some "order_1") [orderAt "pending"]).1) "order_1" = some d1 ∧
      getById ((handleVerifiedEvent false 99 "checkout.session.completed" (some "order_1")
          ((handleVerifiedEvent false 99 "checkout.session.completed"
            (some "order_1") [orderAt "pending"]).1)).1) "order_1" = some d2 ∧
      d1.status = "confirmed" ∧ d2.status = "confirmed" ∧
      d2 = { d1 with updatedAt := 99 } ∧
      (99 = 99 →
        (handleVerifiedEvent false 99 "checkout.session.completed" (some "order_1")
            ((handleVerifiedEvent false 99 "checkout.session.completed"
              (some "order_1") [orderAt "pending"]).1)).1
          = (handleVerifiedEvent false 99 "checkout.session.completed"
              (some "order_1") [orderAt "pending"]).1) :=
  C2_idempotent [orderAt "pending"] "order_1" 99 99 (orderAt "pending") []
    (by decide) (by decide)

/-- C6 counterexample: a store failure while applying a verified completion
event for an existing order is caught by the handler, which leaves the
store unchanged and still acknowledges the event, instead of letting the
error propagate to the request boundary. -/
theorem C6_counterexample :
    (handleVerifiedEvent true 99 "checkout.session.completed"
        (some "order_1") [orderAt "pending"]).2 = WebhookResponse.received ∧
    (handleVerifiedEvent true 99 "checkout.session.completed"
        (some "order_1") [orderAt "pending"]).2 ≠ WebhookResponse.errorPropagated ∧
    (handleVerifiedEvent true 99 "checkout.session.completed"
        (some "order_1") [orderAt "pending"]).1 = [orderAt "pending"] := by
  refine ⟨rfl, by decide, rfl⟩

/-- C6 (amended): the webhook handler swallows store errors raised while
applying a verified completion event — the failure is caught and logged
inside the handler, the store is left unchanged, and the event is
acknowledged with the received body rather than propagated to the request
boundary. -/
theorem C6_store_error_swallowed (t : Nat) (oid? : Option String) (s : Store) :
    handleVerifiedEvent true t "checkout.session.completed" oid? s
      = (s, WebhookResponse.received) := by
  cases oid? <;> rfl

/-- C7: a verified completion event whose correlation id matches no stored
order is handled without an uncaught throw: the store is returned unchanged
(so no order is created) and the event is acknowledged. -/
theorem C7_unknown_order (t : Nat) (oid : String) (s : Store)
    (h : queryById s oid = []) :
    handleVerifiedEvent false t "checkout.session.completed" (some oid) s
      = (s, WebhookResponse.received) := by
  simp [handleVerifiedEvent, handleCompletedEvent, h]

/-- C7 witness: the unknown-order statement evaluated on a store that has no
order with the scanned id. -/
theorem C7_witness :
    handleVerifiedEvent false 99 "checkout.session.completed"
        (some "order_9") [orderAt "pending"]
      = ([orderAt "pending"], WebhookResponse.received) :=
  C7_unknown_order 99 "order_9" [orderAt "pending"] (by decide)

/-- C8: the administrative status update rejects any status outside the
enumerated list leaving the store untouched, reports not-found when no
order carries the id, and for an enumerated status on an existing order
replaces the document with the new status and a refreshed updatedAt, which
a subsequent by-id fetch observes. -/
theorem C8_updateOrderStatus (s : Store) (oid st : String) (t : Nat) :
    (st ∉ validStatuses →
      updateOrderStatus s oid st t = (s, UpdateStatusResult.invalidStatus)) ∧
    (st ∈ validStatuses → queryById s oid = [] →
      updateOrderStatus s oid st t = (s, UpdateStatusResult.notFound)) ∧
    (∀ doc rest, st ∈ validStatuses → queryById s oid = doc :: rest →
      updateOrderStatus s oid st t
        = (replaceDoc s oid doc.userId { doc with status := st, updatedAt := t },
           UpdateStatusResult.updated { doc with status := st, updatedAt := t }) ∧
      getById (updateOrderStatus s oid st t).1 oid
        = some { doc with status := st, updatedAt := t }) := by
  refine ⟨fun hst => by simp [updateOrderStatus, hst],
          fun hst hq => by simp [updateOrderStatus, hst, hq], ?_⟩
  intro doc rest hst hq
  have h1 := updateOrderStatus_eq t hst hq
  refine ⟨h1, ?_⟩
  rw [h1]
  exact getById_after_replace { doc with status := st, updatedAt := t } hq
    (by simpa using queryById_head_id hq)

/-- C8 witness: the update statement evaluated on concrete stores — the
unenumerated status shipped is rejected, processing on an empty store is
not-found, and processing on the stored pending order succeeds and is
visible on fetch. -/
theorem C8_witness :
    updateOrderStatus [orderAt "pending"] "order_1" "shipped" 99
      = ([orderAt "pending"], UpdateStatusResult.invalidStatus) ∧
    updateOrderStatus [] "order_1" "processing" 99 = ([], UpdateStatusResult.notFound) ∧
    (updateOrderStatus [orderAt "pending"] "order_1" "processing" 99
        = (replaceDoc [orderAt "pending"] "order_1" (orderAt "pending").userId
             { orderAt "pending" with status := "processing", updatedAt := 99 },
           UpdateStatusResult.updated
             { orderAt "pending" with status := "processing", updatedAt := 99 }) ∧
      getById (updateOrderStatus [orderAt "pending"] "order_1" "processing" 99).1 "order_1"
        = some { orderAt "pending" with status := "processing", updatedAt := 99 }) :=
  ⟨(C8_updateOrderStatus [orderAt "pending"] "order_1" "shipped" 99).1 (by decide),
   (C8_updateOrderStatus [] "order_1" "processing" 99).2.1 (by decide) (by decide),
   (C8_updateOrderStatus [orderAt "pending"] "order_1" "processing" 99).2.2
     (orderAt "pending") [] (by decide) (by decide)⟩

/-- C10: both status-mutating paths — the administrative status update with
an enumerated status and the completion-event handler — change only the
status and updatedAt fields of the stored document; id, userId, items,
address, total, stripeSessionId, customerEmail, metadata and createdAt are
all preserved, as a subsequent by-id fetch observes. -/
theorem C10_frame (s : Store) (oid : String) (t : Nat) (doc : OrderDoc)
    (rest : List OrderDoc) (hq : queryById s oid = doc :: rest) :
    (∀ st, st ∈ validStatuses →
      ∃ d1, getById (updateOrderStatus s oid st t).1 oid = some d1 ∧
        d1.id = doc.id ∧ d1.userId = doc.userId ∧ d1.items = doc.items ∧
        d1.address = doc.address ∧ d1.total = doc.total ∧
        d1.stripeSessionId = doc.stripeSessionId ∧
        d1.customerEmail = doc.customerEmail ∧ d1.metadata = doc.metadata ∧
        d1.createdAt = doc.createdAt ∧ d1.status = st ∧ d1.updatedAt = t) ∧
    (∃ d2, getById ((handleVerifiedEvent false t "checkout.session.completed"
          (some oid) s).1) oid = some d2 ∧
        d2.id = doc.id ∧ d2.userId = doc.userId ∧ d2.items = doc.items ∧
        d2.address = doc.address ∧ d2.total = doc.total ∧
        d2.stripeSessionId = doc.stripeSessionId ∧
        d2.customerEmail = doc.customerEmail ∧ d2.metadata = doc.metadata ∧
        d2.createdAt = doc.createdAt ∧ d2.status = "confirmed" ∧ d2.updatedAt = t) := by
  have hid : doc.id = oid := queryById_head_id hq
  constructor
  · intro st hst
    refine ⟨{ doc with status := st, updatedAt := t }, ?_,
      rfl, rfl, rfl, rfl, rfl, rfl, rfl, rfl, rfl, rfl, rfl⟩
    rw [updateOrderStatus_eq t hst hq]
    exact getById_after_replace { doc with status := st, updatedAt := t } hq
      (by simpa using hid)
  · refine ⟨{ doc with status := "confirmed", updatedAt := t }, ?_,
      rfl, rfl, rfl, rfl, rfl, rfl, rfl, rfl, rfl, rfl, rfl⟩
    have h1 : handleVerifiedEvent false t "checkout.session.completed" (some oid) s
        = (replaceDoc s oid doc.userId { doc with status := "confirmed", updatedAt := t },
           WebhookResponse.received) := by
      simp [handleVerifiedEvent, handleCompletedEvent, hq]
    rw [h1]
    exact getById_after_replace { doc with status := "confirmed", updatedAt := t } hq
      (by simpa using hid)

/-- C10 witness: the frame statement evaluated on the one-order store at
status pending, with the administrative update instantiated at
out_for_delivery. -/
theorem C10_witness :
    (∃ d1, getById (updateOrderStatus [orderAt "pending"] "order_1"
          "out_for_delivery" 99).1 "order_1" = some d1 ∧
        d1.id = (orderAt "pending").id ∧ d1.userId = (orderAt "pending").userId ∧
        d1.items = (orderAt "pending").items ∧ d1.address = (orderAt "pending").address ∧
        d1.total = (orderAt "pending").total ∧
        d1.stripeSessionId = (orderAt "pending").stripeSessionId ∧
        d1.customerEmail = (orderAt "pending").customerEmail ∧
        d1.metadata = (orderAt "pending").metadata ∧
        d1.createdAt = (orderAt "pending").createdAt ∧
        d1.status = "out_for_delivery" ∧ d1.updatedAt = 99) ∧
    (∃ d2, getById ((handleVerifiedEvent false 99 "checkout.session.completed"
          (some "order_1") [orderAt "pending"]).1) "order_1" = some d2 ∧
        d2.id = (orderAt "pending").id ∧ d2.userId = (orderAt "pending").userId ∧
        d2.items = (orderAt "pending").items ∧ d2.address = (orderAt "pending").address ∧
        d2.total = (orderAt "pending").total ∧
        d2.stripeSessionId = (orderAt "pending").stripeSessionId ∧
        d2.customerEmail = (orderAt "pending").customerEmail ∧
        d2.metadata = (orderAt "pending").metadata ∧
        d2.createdAt = (orderAt "pending").createdAt ∧
        d2.status = "confirmed" ∧ d2.updatedAt = 99) := by
  have h := C10_frame [orderAt "pending"] "order_1" 99 (orderAt "pending") [] (by decide)
  exact ⟨h.1 "out_for_delivery" (by decide), h.2⟩

/-- The user-id message appears among the validation errors exactly when
the user id is empty. -/
theorem mem_validate_userId (o : OrderDoc) :
    "User ID is required" ∈ validateOrder o ↔ o.userId = "" := by
  by_cases h1 : o.userId = "" <;>
  by_cases h2 : o.items = [] <;>
  by_cases h3 : o.address.street = "" ∨ o.address.city = "" ∨ o.address.country = "" <;>
  by_cases h4 : o.customerEmail = "" <;>
  simp [validateOrder, h1, h2, h3, h4]

/-- The items message appears among the validation errors exactly when the
items list is empty. -/
theorem mem_validate_items (o : OrderDoc) :
    "At least one item is required" ∈ validateOrder o ↔ o.items = [] := by
  by_cases h1 : o.userId = "" <;>
  by_cases h2 : o.items = [] <;>
  by_cases h3 : o.address.street = "" ∨ o.address.city = "" ∨ o.address.country = "" <;>
  by_cases h4 : o.customerEmail = "" <;>
  simp [validateOrder, h1, h2, h3, h4]

/-- The address message appears among the validation errors exactly when
street, city or country is empty. -/
theorem mem_validate_address (o : OrderDoc) :
    "Valid address is required" ∈ validateOrder o ↔
      (o.address.street = "" ∨ o.address.city = "" ∨ o.address.country = "") := by
  by_cases h1 : o.userId = "" <;>
  by_cases h2 : o.items = [] <;>
  by_cases h3 : o.address.street = "" ∨ o.address.city = "" ∨ o.address.country = "" <;>
  by_cases h4 : o.customerEmail = "" <;>
  simp [validateOrder, h1, h2, h3, h4]

/-- The email message appears among the validation errors exactly when the
customer email is empty. -/
theorem mem_validate_email (o : OrderDoc) :
    "Customer email is required" ∈ validateOrder o ↔ o.customerEmail = "" := by
  by_cases h1 : o.userId = "" <;>
  by_cases h2 : o.items = [] <;>
  by_cases h3 : o.address.street = "" ∨ o.address.city = "" ∨ o.address.country = "" <;>
  by_cases h4 : o.customerEmail = "" <;>
  simp [validateOrder, h1, h2, h3, h4]

/-- A point lookup over a store extended with one fresh document resolves
that document when no earlier document carries its key. -/
theorem getByOwnerAndId_append_single (s : Store) (oid u : String) (d : OrderDoc)
    (hfree : ∀ x ∈ s, ¬(x.id = oid ∧ x.userId = u))
    (hid : d.id = oid) (hu : d.userId = u) :
    getByOwnerAndId (s ++ [d]) oid u = some d := by
  unfold getByOwnerAndId
  rw [List.find?_append]
  have hnone : s.find? (fun x => x.id == oid && x.userId == u) = none := by
    rw [List.find?_eq_none]
    intro x hx
    rcases not_and_or.mp (hfree x hx) with h | h <;> simp [h]
  simp [hnone, hid, hu]

/-- Unfolding of createOrder on the success path. -/
theorem createOrder_success {s : Store} {oid : String} {t : Nat} {data : OrderData}
    (hval : validateOrder (mkOrder oid t data) = [])
    (hfree : ∀ d ∈ s, ¬(d.id = oid ∧ d.userId = data.userId)) :
    createOrder s oid t data
      = CreateOrderResult.created (s ++ [mkOrder oid t data]) (mkOrder oid t data) := by
  have hany : s.any (fun d => d.id == oid && d.userId == data.userId) = false := by
    rw [List.any_eq_false]
    intro d hd
    rcases not_and_or.mp (hfree d hd) with h | h <;> simp [h]
  simp [createOrder, hval, hany]

/-- C3 counterexample: an order whose single line item has quantity 0 and a
negative price, with all other fields valid, is accepted by createOrder and
persisted rather than rejected with a validation error. -/
theorem C3_counterexample :
    badItem ∈
      (OrderData.mk "u1" [badItem] sampleAddress 7 "jo@example.com" []).items ∧
    badItem.quantity = 0 ∧ badItem.price < 0 ∧
    createOrder [] "o1" 5 (OrderData.mk "u1" [badItem] sampleAddress 7 "jo@example.com" [])
      = CreateOrderResult.created
          [mkOrder "o1" 5 (OrderData.mk "u1" [badItem] sampleAddress 7 "jo@example.com" [])]
          (mkOrder "o1" 5 (OrderData.mk "u1" [badItem] sampleAddress 7 "jo@example.com" [])) := by
  refine ⟨by decide, by decide, by decide, by decide⟩

/-- C3 (amended): createOrder validates only that the user id, the items
list, the address (street, city, country) and the customer email are
non-empty — line item quantities and prices are not checked.  When any of
these checks fails it rejects with a validation failure whose message joins
every violated constraint, each message present exactly when its check
fails; when all pass (and the id is fresh in the partition) it persists the
pending order. -/
theorem C3_validation (s : Store) (oid : String) (t : Nat) (data : OrderData) :
    (validateOrder (mkOrder oid t data) ≠ [] →
      createOrder s oid t data
        = CreateOrderResult.validationFailure
            ("Order validation failed: " ++
              String.intercalate ", " (validateOrder (mkOrder oid t data)))) ∧
    ("User ID is required" ∈ validateOrder (mkOrder oid t data) ↔ data.userId = "") ∧
    ("At least one item is required" ∈ validateOrder (mkOrder oid t data) ↔
      data.items = []) ∧
    ("Valid address is required" ∈ validateOrder (mkOrder oid t data) ↔
      (data.address.street = "" ∨ data.address.city = "" ∨ data.address.country = "")) ∧
    ("Customer email is required" ∈ validateOrder (mkOrder oid t data) ↔
      data.customerEmail = "") ∧
    (validateOrder (mkOrder oid t data) = [] →
      (∀ d ∈ s, ¬(d.id = oid ∧ d.userId = data.userId)) →
      createOrder s oid t data
        = CreateOrderResult.created (s ++ [mkOrder oid t data]) (mkOrder oid t data) ∧
      (mkOrder oid t data).status = "pending" ∧
      (mkOrder oid t data).stripeSessionId = none) := by
  refine ⟨fun hval => by simp [createOrder, hval],
    mem_validate_userId _, mem_validate_items _, mem_validate_address _,
    mem_validate_email _, fun hval hfree => ⟨createOrder_success hval hfree, rfl, rfl⟩⟩

/-- C3 witness: the amended statement evaluated on an order missing its
items and customer email — the failure message joins both violated
constraints. -/
theorem C3_witness :
    createOrder [] "o1" 5 (OrderData.mk "u1" [] sampleAddress 7 "" [])
      = CreateOrderResult.validationFailure
          ("Order validation failed: " ++
            String.intercalate ", "
              (validateOrder (mkOrder "o1" 5 (OrderData.mk "u1" [] sampleAddress 7 "" [])))) :=
  (C3_validation [] "o1" 5 (OrderData.mk "u1" [] sampleAddress 7 "" [])).1 (by decide)

/-- C4: when createOrder succeeds and the gateway call returns session id
sid, the controller responds with the checkout url and the order fetched by
owner and id afterwards carries stripeSessionId sid with status still
pending. -/
theorem C4_roundtrip (s : Store) (oid : String) (t1 t2 : Nat) (data : OrderData)
    (sid url : String)
    (hval : validateOrder (mkOrder oid t1 data) = [])
    (hfree : ∀ d ∈ s, ¬(d.id = oid ∧ d.userId = data.userId)) :
    createCheckoutSession s oid t1 t2 data.userId data.items data.customerEmail
        (some data.address) data.total data.metadata (GatewayResult.success sid url)
      = (s ++ [{ mkOrder oid t1 data with stripeSessionId := some sid, updatedAt := t2 }],
         CheckoutResponse.checkoutUrl url) ∧
    getByOwnerAndId
        (createCheckoutSession s oid t1 t2 data.userId data.items data.customerEmail
          (some data.address) data.total data.metadata (GatewayResult.success sid url)).1
        oid data.userId
      = some { mkOrder oid t1 data with stripeSessionId := some sid, updatedAt := t2 } ∧
    ({ mkOrder oid t1 data with
        stripeSessionId := some sid, updatedAt := t2 } : OrderDoc).stripeSessionId
      = some sid ∧
    ({ mkOrder oid t1 data with
        stripeSessionId := some sid, updatedAt := t2 } : OrderDoc).status = "pending" := by
  have hitems : data.items ≠ [] :=
    ((validateOrder_eq_nil_iff _).mp hval).2.1
  have hcreate := createOrder_success hval hfree
  have hmain : createCheckoutSession s oid t1 t2 data.userId data.items data.customerEmail
        (some data.address) data.total data.metadata (GatewayResult.success sid url)
      = (replaceDoc (s ++ [mkOrder oid t1 data]) oid data.userId
           { mkOrder oid t1 data with stripeSessionId := some sid, updatedAt := t2 },
         CheckoutResponse.checkoutUrl url) := by
    simp [createCheckoutSession, hitems, hcreate, mkOrder]
  have hsingle : replaceDoc [mkOrder oid t1 data] oid data.userId
        { mkOrder oid t1 data with stripeSessionId := some sid, updatedAt := t2 }
      = [{ mkOrder oid t1 data with stripeSessionId := some sid, updatedAt := t2 }] := by
    simp [replaceDoc, mkOrder]
  have hsplit : replaceDoc (s ++ [mkOrder oid t1 data]) oid data.userId
        { mkOrder oid t1 data with stripeSessionId := some sid, updatedAt := t2 }
      = replaceDoc s oid data.userId
          { mkOrder oid t1 data with stripeSessionId := some sid, updatedAt := t2 } ++
        replaceDoc [mkOrder oid t1 data] oid data.userId
          { mkOrder oid t1 data with stripeSessionId := some sid, updatedAt := t2 } := by
    simp [replaceDoc]
  have hrepl : replaceDoc (s ++ [mkOrder oid t1 data]) oid data.userId
        { mkOrder oid t1 data with stripeSessionId := some sid, updatedAt := t2 }
      = s ++ [{ mkOrder oid t1 data with stripeSessionId := some sid, updatedAt := t2 }] := by
    rw [hsplit, replaceDoc_not_present s oid data.userId _ hfree, hsingle]
  refine ⟨by rw [hmain, hrepl], ?_, rfl, rfl⟩
  rw [hmain, hrepl]
  exact getByOwnerAndId_append_single s oid data.userId _ hfree rfl rfl

/-- C4 witness: the round-trip statement evaluated on the empty store with
a concrete cart and the gateway returning session sess_abc. -/
theorem C4_witness :
    createCheckoutSession [] "o1" 5 6 "u1" [sampleItem] "jo@example.com"
        (some sampleAddress) 1000 [("order_ref", "ORD-9")]
        (GatewayResult.success "sess_abc" "https://pay.example/x")
      = ([{ mkOrder "o1" 5 (OrderData.mk "u1" [sampleItem] sampleAddress 1000
              "jo@example.com" [("order_ref", "ORD-9")]) with
            stripeSessionId := some "sess_abc", updatedAt := 6 }],
         CheckoutResponse.checkoutUrl "https://pay.example/x") ∧
    getByOwnerAndId
        (createCheckoutSession [] "o1" 5 6 "u1" [sampleItem] "jo@example.com"
          (some sampleAddress) 1000 [("order_ref", "ORD-9")]
          (GatewayResult.success "sess_abc" "https://pay.example/x")).1 "o1" "u1"
      = some { mkOrder "o1" 5 (OrderData.mk "u1" [sampleItem] sampleAddress 1000
            "jo@example.com" [("order_ref", "ORD-9")]) with
          stripeSessionId := some "sess_abc", updatedAt := 6 } ∧
    ({ mkOrder "o1" 5 (OrderData.mk "u1" [sampleItem] sampleAddress 1000
          "jo@example.com" [("order_ref", "ORD-9")]) with
        stripeSessionId := some "sess_abc", updatedAt := 6 } : OrderDoc).stripeSessionId
      = some "sess_abc" ∧
    ({ mkOrder "o1" 5 (OrderData.mk "u1" [sampleItem] sampleAddress 1000
          "jo@example.com" [("order_ref", "ORD-9")]) with
        stripeSessionId := some "sess_abc", updatedAt := 6 } : OrderDoc).status
      = "pending" :=
  C4_roundtrip [] "o1" 5 6
    (OrderData.mk "u1" [sampleItem] sampleAddress 1000 "jo@example.com"
      [("order_ref", "ORD-9")])
    "sess_abc" "https://pay.example/x" (by decide) (by decide)

/-- C5: when the gateway call fails after the pending order was created,
the controller responds with the catch-all server error (not a success and
not a client-input rejection), while the persisted order remains in the
store with status pending and no session id. -/
theorem C5_gateway_failure (s : Store) (oid : String) (t1 t2 : Nat) (data : OrderData)
    (hval : validateOrder (mkOrder oid t1 data) = [])
    (hfree : ∀ d ∈ s, ¬(d.id = oid ∧ d.userId = data.userId)) :
    createCheckoutSession s oid t1 t2 data.userId data.items data.customerEmail
        (some data.address) data.total data.metadata GatewayResult.failure
      = (s ++ [mkOrder oid t1 data], CheckoutResponse.serverError) ∧
    getByOwnerAndId (s ++ [mkOrder oid t1 data]) oid data.userId
      = some (mkOrder oid t1 data) ∧
    (mkOrder oid t1 data).status = "pending" ∧
    (mkOrder oid t1 data).stripeSessionId = none ∧
    (∀ u, CheckoutResponse.serverError ≠ CheckoutResponse.checkoutUrl u) := by
  have hitems : data.items ≠ [] :=
    ((validateOrder_eq_nil_iff _).mp hval).2.1
  have hcreate := createOrder_success hval hfree
  refine ⟨by simp [createCheckoutSession, hitems, hcreate], ?_, rfl, rfl, by intro u; simp⟩
  exact getByOwnerAndId_append_single s oid data.userId _ hfree rfl rfl

/-- C5 witness: the gateway-failure statement evaluated on the empty store
with a concrete cart. -/
theorem C5_witness :
    createCheckoutSession [] "o1" 5 6 "u1" [sampleItem] "jo@example.com"
        (some sampleAddress) 1000 [("order_ref", "ORD-9")] GatewayResult.failure
      = ([mkOrder "o1" 5 (OrderData.mk "u1" [sampleItem] sampleAddress 1000
            "jo@example.com" [("order_ref", "ORD-9")])],
         CheckoutResponse.serverError) ∧
    getByOwnerAndId
        [mkOrder "o1" 5 (OrderData.mk "u1" [sampleItem] sampleAddress 1000
          "jo@example.com" [("order_ref", "ORD-9")])] "o1" "u1"
      = some (mkOrder "o1" 5 (OrderData.mk "u1" [sampleItem] sampleAddress 1000
          "jo@example.com" [("order_ref", "ORD-9")])) ∧
    (mkOrder "o1" 5 (OrderData.mk "u1" [sampleItem] sampleAddress 1000
        "jo@example.com" [("order_ref", "ORD-9")])).status = "pending" ∧
    (mkOrder "o1" 5 (OrderData.mk "u1" [sampleItem] sampleAddress 1000
        "jo@example.com" [("order_ref", "ORD-9")])).stripeSessionId = none ∧
    (∀ u, CheckoutResponse.serverError ≠ CheckoutResponse.checkoutUrl u) :=
  C5_gateway_failure [] "o1" 5 6
    (OrderData.mk "u1" [sampleItem] sampleAddress 1000 "jo@example.com"
      [("order_ref", "ORD-9")])
    (by decide) (by decide)

/-- Shared pagination fact: over 25 matching documents, pages 1 and 2 at
limit 10 each hold exactly 10 documents, are disjoint, are sorted by
createdAt descending, and together form the first 20 documents of the
sorted match list. -/
theorem runOrdersQuery_25 (s : Store) (f : OrderDoc → Bool)
    (hnd : s.Nodup) (hlen : (s.filter f).length = 25) :
    (runOrdersQuery s f 1 10).length = 10 ∧
    (runOrdersQuery s f 2 10).length = 10 ∧
    (runOrdersQuery s f 1 10).Disjoint (runOrdersQuery s f 2 10) ∧
    List.Sorted createdAtGE (runOrdersQuery s f 1 10) ∧
    List.Sorted createdAtGE (runOrdersQuery s f 2 10) ∧
    runOrdersQuery s f 1 10 ++ runOrdersQuery s f 2 10
      = (sortByCreatedAtDesc (s.filter f)).take 20 := by
  have hperm : (sortByCreatedAtDesc (s.filter f)).Perm (s.filter f) :=
    List.perm_insertionSort _ _
  have hLlen : (sortByCreatedAtDesc (s.filter f)).length = 25 := by
    rw [hperm.length_eq, hlen]
  have hLnd : (sortByCreatedAtDesc (s.filter f)).Nodup :=
    hperm.symm.nodup (hnd.filter f)
  have hsort : List.Sorted createdAtGE (sortByCreatedAtDesc (s.filter f)) :=
    List.sorted_insertionSort _ _
  have e1 : runOrdersQuery s f 1 10 = (sortByCreatedAtDesc (s.filter f)).take 10 := by
    norm_num [runOrdersQuery]
  have e2 : runOrdersQuery s f 2 10
      = ((sortByCreatedAtDesc (s.filter f)).drop 10).take 10 := by
    norm_num [runOrdersQuery]
  refine ⟨?_, ?_, ?_, ?_, ?_, ?_⟩
  · rw [e1, List.length_take, hLlen]
    decide
  · rw [e2, List.length_take, List.length_drop, hLlen]
    decide
  · rw [e1, e2]
    intro a ha hb
    exact List.disjoint_take_drop hLnd (le_refl 10) ha (List.take_subset _ _ hb)
  · rw [e1]
    exact List.Pairwise.sublist (List.take_sublist _ _) hsort
  · rw [e2]
    exact List.Pairwise.sublist
      ((List.take_sublist _ _).trans (List.drop_sublist _ _)) hsort
  · rw [e1, e2]
    have h20 := List.take_add (sortByCreatedAtDesc (s.filter f)) 10 10
    norm_num at h20
    exact h20.symm

/-- C9: both order listings paginate with offset (page-1)*limit over the
matches sorted by createdAt descending — over 25 matching orders (ids
unique across the store, per the store invariant), page 2 at limit 10
returns exactly 10 orders, disjoint from the 10 of page 1, in
createdAt-descending order, the two pages together being the first 20 of
the sorted match list. -/
theorem C9_pagination (s : Store) (uid : String) (status? search? : Option String)
    (hids : (s.map (fun d => d.id)).Nodup)
    (hu : (s.filter (userOrdersFilter uid status? search?)).length = 25)
    (ha : (s.filter (adminOrdersFilter status? search?)).length = 25) :
    ((getOrders s uid status? search? 1 10).length = 10 ∧
     (getOrders s uid status? search? 2 10).length = 10 ∧
     (getOrders s uid status? search? 1 10).Disjoint (getOrders s uid status? search? 2 10) ∧
     List.Sorted createdAtGE (getOrders s uid status? search? 1 10) ∧
     List.Sorted createdAtGE (getOrders s uid status? search? 2 10) ∧
     getOrders s uid status? search? 1 10 ++ getOrders s uid status? search? 2 10
       = (sortByCreatedAtDesc (s.filter (userOrdersFilter uid status? search?))).take 20) ∧
    ((getAllOrders s status? search? 1 10).length = 10 ∧
     (getAllOrders s status? search? 2 10).length = 10 ∧
     (getAllOrders s status? search? 1 10).Disjoint (getAllOrders s status? search? 2 10) ∧
     List.Sorted createdAtGE (getAllOrders s status? search? 1 10) ∧
     List.Sorted createdAtGE (getAllOrders s status? search? 2 10) ∧
     getAllOrders s status? search? 1 10 ++ getAllOrders s status? search? 2 10
       = (sortByCreatedAtDesc (s.filter (adminOrdersFilter status? search?))).take 20) := by
  have hnd : s.Nodup := List.Nodup.of_map _ hids
  exact ⟨runOrdersQuery_25 s _ hnd hu, runOrdersQuery_25 s _ hnd ha⟩

/-- The concrete 25-order store used to witness the pagination claim: 25
pending orders of one owner with distinct ids and strictly increasing
creation times. -/
def paginationStore : Store :=
  (List.range 25).map nthOrder

/-- C9 witness: the pagination statement evaluated on the concrete 25-order
store with no status or search filter. -/
theorem C9_witness :
    ((getOrders paginationStore "user_1" none none 1 10).length = 10 ∧
     (getOrders paginationStore "user_1" none none 2 10).length = 10 ∧
     (getOrders paginationStore "user_1" none none 1 10).Disjoint
       (getOrders paginationStore "user_1" none none 2 10) ∧
     List.Sorted createdAtGE (getOrders paginationStore "user_1" none none 1 10) ∧
     List.Sorted createdAtGE (getOrders paginationStore "user_1" none none 2 10) ∧
     getOrders paginationStore "user_1" none none 1 10 ++
         getOrders paginationStore "user_1" none none 2 10
       = (sortByCreatedAtDesc
           (paginationStore.filter (userOrdersFilter "user_1" none none))).take 20) ∧
    ((getAllOrders paginationStore none none 1 10).length = 10 ∧
     (getAllOrders paginationStore none none 2 10).length = 10 ∧
     (getAllOrders paginationStore none none 1 10).Disjoint
       (getAllOrders paginationStore none none 2 10) ∧
     List.Sorted createdAtGE (getAllOrders paginationStore none none 1 10) ∧
     List.Sorted createdAtGE (getAllOrders paginationStore none none 2 10) ∧
     getAllOrders paginationStore none none 1 10 ++
         getAllOrders paginationStore none none 2 10
       = (sortByCreatedAtDesc
           (paginationStore.filter (adminOrdersFilter none none))).take 20) :=
  C9_pagination paginationStore "user_1" none none (by decide) (by decide) (by decide)

end JohnApi
